import Mathlib

/-!
Shallow embedding of `AnalogGyro.cpp` (wpilibc athena) and proofs about it.

Modelling conventions:
* C++ `float`/`double` arithmetic is modelled over exact rationals `ℚ`; the
  claims under study concern exact formulas and the exact tie-break of the
  `+0.5`-then-truncate rounding, all representable in `ℚ`.
* Machine-integer casts (`(uint32_t)`, `(int64_t)`, `int32_t` initialisation
  from a float) are modelled as explicit truncation toward zero; overflow
  wrap-around of these casts is not exercised by any claim and is left
  unmodelled.
* The `AnalogInput` channel ("Channel Adapter") is an external collaborator;
  it is modelled as a record of the state and readings the gyro code consumes.
* `Wait` calls are recorded in a trace so that "performs no wait" claims are
  statable.
* Dereferencing the channel pointer while it is null (`m_analog == nullptr`)
  is undefined behaviour in the source; the model records such a dereference
  in a `nullDeref` flag instead of crashing.
-/

/-- Truncation of a rational toward zero, the semantics of a C cast from a
floating-point value to an integer type (when in range). -/
def qtrunc (x : ℚ) : ℤ := if 0 ≤ x then ⌊x⌋ else ⌈x⌉

/-- State of the external accumulating analog channel (`AnalogInput`), as
consumed by the gyro code: configuration registers, the running accumulator,
and the instantaneous averaged reading supplied by the hardware. -/
structure Channel where
  isAccumulatorChannel : Bool
  lsbWeight : ℚ
  averageBits : ℕ
  oversampleBits : ℕ
  sampleRate : ℚ
  accumulatorValue : ℤ
  accumulatorCount : ℕ
  accumulatorCenter : ℕ
  accumulatorDeadband : ℤ
  averageValue : ℚ
  channelId : ℕ
deriving DecidableEq, Repr

/-- Error kinds set through `wpi_setWPIError` in this file. -/
inductive WPIError where
  | NullParameter
  | ParameterOutOfRange
deriving DecidableEq, Repr

/-- State of one `AnalogGyro` object: the (possibly null) channel reference,
the calibration bias pair, the sensitivity, the sticky error status, a trace
of `Wait` calls, and a flag recording any null-pointer dereference. -/
structure Gyro where
  analog : Option Channel
  center : ℕ
  offset : ℚ
  voltsPerDegreePerSecond : ℚ
  error : Option WPIError
  waits : List ℚ
  nullDeref : Bool
deriving DecidableEq, Repr

/-- Modelled from the spec: the class constants are declared in the header
`AnalogGyro.h`, which is not under `src/`; the spec describes them only as
fixed constants (oversample/average depth, base sample rate, a fixed
calibration sampling window, a default sensitivity). No claim depends on
their numeric values. -/
def kOversampleBits : ℕ := 10

/-- Modelled from the spec: averaging depth constant from the header. -/
def kAverageBits : ℕ := 0

/-- Modelled from the spec: base sample rate constant from the header. -/
def kSamplesPerSecond : ℚ := 50

/-- Modelled from the spec: the fixed calibration sampling window from the
header ("a physical time duration constant"). -/
def kCalibrationSampleTime : ℚ := 5

/-- Modelled from the spec: default sensitivity constant from the header. -/
def kDefaultVoltsPerDegreePerSecond : ℚ := 7 / 1000

namespace Gyro

/-- Model of `StatusIsFatal()`: the sticky status flag is fatal exactly when
an error has been recorded on this object. -/
def StatusIsFatal (g : Gyro) : Bool := g.error.isSome

/-- Model of `Wait(t)`: record the blocking delay in the trace. -/
def WaitFor (t : ℚ) (g : Gyro) : Gyro := { g with waits := g.waits ++ [t] }

/-- Dereference `m_analog` and apply a channel mutation; a dereference of a
null channel reference is undefined behaviour in the source and is recorded
in the `nullDeref` flag here. -/
def derefMut (g : Gyro) (f : Channel → Channel) : Gyro :=
  match g.analog with
  | some ch => { g with analog := some (f ch) }
  | none => { g with nullDeref := true }

/-- Model of `AnalogGyro::SetDeadband` (lines 254-260): convert the voltage
threshold to raw counts with the source's expression
`volts * 1e9 / lsbWeight * (1 << oversampleBits)`, truncated by the
`int32_t` initialisation, and install it on the channel. -/
def SetDeadband (volts : ℚ) (g : Gyro) : Gyro :=
  if g.StatusIsFatal then g
  else
    g.derefMut fun ch =>
      { ch with accumulatorDeadband :=
          qtrunc (volts * 1000000000 / ch.lsbWeight * 2 ^ ch.oversampleBits) }

/-- Model of `AnalogGyro::InitGyro` (lines 128-153): reject a channel that
cannot accumulate (parameter-out-of-range error, channel reference cleared);
otherwise install the configuration constants, derive the sample rate, wait
0.1 s for it to settle, and zero the deadband. Telemetry and LiveWindow
registration are out-of-scope side effects. -/
def InitGyro (g : Gyro) : Gyro :=
  if g.StatusIsFatal then g
  else
    match g.analog with
    | none => { g with nullDeref := true }
    | some ch =>
      if ch.isAccumulatorChannel = false then
        { g with error := some WPIError.ParameterOutOfRange, analog := none }
      else
        let ch := { ch with averageBits := kAverageBits,
                            oversampleBits := kOversampleBits,
                            sampleRate :=
                              kSamplesPerSecond *
                                2 ^ (kAverageBits + kOversampleBits) }
        let g := { g with analog := some ch,
                          voltsPerDegreePerSecond :=
                            kDefaultVoltsPerDegreePerSecond }
        let g := g.WaitFor (1 / 10)
        g.SetDeadband 0

/-- Model of `AnalogGyro::Calibrate` (lines 155-171). The accumulator output
read back after the calibration wait is hardware input, passed as the pair
`(value, count)`. The source computes the mean `value / count` with no guard
on `count = 0`, rounds it into `m_center` by `+0.5` then `(uint32_t)`
truncation, stores the remainder in `m_offset`, pushes the center into the
channel and resets the accumulator. -/
def Calibrate (value : ℤ) (count : ℕ) (g : Gyro) : Gyro :=
  if g.StatusIsFatal then g
  else
    let g := g.derefMut fun ch =>
      { ch with accumulatorValue := 0, accumulatorCount := 0 }
    let g := g.WaitFor kCalibrationSampleTime
    let g := g.derefMut fun ch =>
      { ch with accumulatorValue := value, accumulatorCount := count }
    let m : ℚ := (value : ℚ) / (count : ℚ)
    let g := { g with center := (qtrunc (m + 1 / 2)).toNat }
    let g := { g with offset := m - (g.center : ℚ) }
    let g := g.derefMut fun ch => { ch with accumulatorCenter := g.center }
    g.derefMut fun ch => { ch with accumulatorValue := 0, accumulatorCount := 0 }

/-- Model of `AnalogGyro::Reset` (lines 120-123): guarded by the fatal
status; resets the channel accumulator only. -/
def Reset (g : Gyro) : Gyro :=
  if g.StatusIsFatal then g
  else g.derefMut fun ch => { ch with accumulatorValue := 0, accumulatorCount := 0 }

/-- Model of `AnalogGyro::GetAngle` (lines 185-199): read the accumulator,
subtract `(int64_t)((float)count * m_offset)` (a truncating cast), and scale
by `1e-9 * lsbWeight * 2^averageBits / (sampleRate * sensitivity)`. Returns
`0` when the status is fatal. -/
def GetAngle (g : Gyro) : ℚ :=
  if g.StatusIsFatal then 0
  else
    match g.analog with
    | none => 0
    | some ch =>
      let value : ℤ :=
        ch.accumulatorValue - qtrunc ((ch.accumulatorCount : ℚ) * g.offset)
      (value : ℚ) * (1 / 1000000000) * ch.lsbWeight * 2 ^ ch.averageBits /
        (ch.sampleRate * g.voltsPerDegreePerSecond)

/-- Model of `AnalogGyro::GetRate` (lines 208-214): scale the distance of the
averaged reading from `center + offset`. Returns `0` when the status is
fatal. -/
def GetRate (g : Gyro) : ℚ :=
  if g.StatusIsFatal then 0
  else
    match g.analog with
    | none => 0
    | some ch =>
      (ch.averageValue - ((g.center : ℚ) + g.offset)) * (1 / 1000000000) *
        ch.lsbWeight / (2 ^ ch.oversampleBits * g.voltsPerDegreePerSecond)

/-- Model of `AnalogGyro::GetOffset` (line 222): unguarded field read. -/
def GetOffset (g : Gyro) : ℚ := g.offset

/-- Model of `AnalogGyro::GetCenter` (line 230): unguarded field read. -/
def GetCenter (g : Gyro) : ℕ := g.center

/-- Model of `AnalogGyro::SetSensitivity` (lines 241-243): the source writes
`m_voltsPerDegreePerSecond` with no fatal-status guard. -/
def SetSensitivity (v : ℚ) (g : Gyro) : Gyro :=
  { g with voltsPerDegreePerSecond := v }

end Gyro

/-- Fresh object state at the start of a constructor body: no error, no
waits, fields at their default-initialised values. -/
def Gyro.initial (channel : Option Channel) : Gyro :=
  { analog := channel, center := 0, offset := 0,
    voltsPerDegreePerSecond := 0, error := none, waits := [], nullDeref := false }

/-- Model of the calibrating constructor
`AnalogGyro(std::shared_ptr<AnalogInput> channel)` (lines 59-67): null check,
then `InitGyro` followed by `Calibrate`. The accumulator output that
`Calibrate` reads back after its wait is hardware input `(value, count)`. -/
def AnalogGyroShared (channel : Option Channel) (value : ℤ) (count : ℕ) : Gyro :=
  match channel with
  | none => { Gyro.initial none with error := some WPIError.NullParameter }
  | some ch =>
    ((Gyro.initial (some ch)).InitGyro).Calibrate value count

/-- Model of the preset-bias constructor
`AnalogGyro(std::shared_ptr<AnalogInput> channel, uint32_t center, float
offset)` (lines 99-111): null check, `InitGyro`, then unconditional
assignment of the preset pair and two direct channel calls
(`SetAccumulatorCenter`, `ResetAccumulator`) that are not guarded by the
fatal status. -/
def AnalogGyroPresetShared (channel : Option Channel) (center : ℕ)
    (offset : ℚ) : Gyro :=
  match channel with
  | none => { Gyro.initial none with error := some WPIError.NullParameter }
  | some ch =>
    let g := (Gyro.initial (some ch)).InitGyro
    let g := { g with center := center, offset := offset }
    let g := g.derefMut fun ch => { ch with accumulatorCenter := center }
    g.derefMut fun ch => { ch with accumulatorValue := 0, accumulatorCount := 0 }

/-- Model of the preset-bias constructor
`AnalogGyro(int32_t channel, uint32_t center, float offset)` (lines 79-86):
`make_shared` yields a non-null channel (modelled as the `Channel` the
adapter constructor produces), so there is no null check; otherwise the body
is the same sequence as the shared-pointer preset constructor. -/
def AnalogGyroPresetInt (ch : Channel) (center : ℕ) (offset : ℚ) : Gyro :=
  let g := (Gyro.initial (some ch)).InitGyro
  let g := { g with center := center, offset := offset }
  let g := g.derefMut fun ch => { ch with accumulatorCenter := center }
  g.derefMut fun ch => { ch with accumulatorValue := 0, accumulatorCount := 0 }

/-- The deadband value currently installed on the channel, `0` if the
channel reference is null. -/
def installedDeadband (g : Gyro) : ℤ :=
  match g.analog with
  | some ch => ch.accumulatorDeadband
  | none => 0

/-- Angle formula following the spec's words in section 4.3: the correction
uses `round(count * offset)` (round to nearest), not a truncating cast. Used
to compare the spec text with the source's `GetAngle`. -/
def specGetAngleRound (g : Gyro) : ℚ :=
  if g.StatusIsFatal then 0
  else
    match g.analog with
    | none => 0
    | some ch =>
      let value : ℤ :=
        ch.accumulatorValue - round ((ch.accumulatorCount : ℚ) * g.offset)
      (value : ℚ) * (1 / 1000000000) * ch.lsbWeight * 2 ^ ch.averageBits /
        (ch.sampleRate * g.voltsPerDegreePerSecond)

/-- A concrete accumulator-capable channel used in witnesses. -/
def chEx : Channel :=
  { isAccumulatorChannel := true, lsbWeight := 1000000000, averageBits := 0,
    oversampleBits := 0, sampleRate := 1, accumulatorValue := 0,
    accumulatorCount := 0, accumulatorCenter := 0, accumulatorDeadband := 0,
    averageValue := 0, channelId := 0 }

/-- A concrete valid gyro state used in witnesses. -/
def gEx : Gyro :=
  { analog := some chEx, center := 0, offset := 0,
    voltsPerDegreePerSecond := kDefaultVoltsPerDegreePerSecond,
    error := none, waits := [], nullDeref := false }

/-- A concrete channel that has accumulated `(value, count) = (2, 3)`. -/
def chC3 : Channel := { chEx with accumulatorValue := 2, accumulatorCount := 3 }

/-- A concrete valid gyro state for the angle rounding comparison: the
stored offset is `1/2`, so `count * offset = 1.5` separates truncation from
rounding. -/
def gC3 : Gyro :=
  { analog := some chC3, center := 0, offset := 1 / 2,
    voltsPerDegreePerSecond := 1, error := none, waits := [],
    nullDeref := false }

/-- A concrete channel whose averaged reading equals the calibration mean
`21/2` of the reading `(value, count) = (21, 2)`: a stationary stream. -/
def chAvg : Channel := { chEx with averageValue := 21 / 2 }

/-- A concrete valid gyro state over `chAvg`. -/
def gAvg : Gyro := { gEx with analog := some chAvg }

/-- A concrete channel whose raw value corresponds to 720 degrees of
rotation under unit scaling. -/
def ch720 : Channel := { chEx with accumulatorValue := 720 }

/-- A concrete valid gyro state whose accumulator corresponds to 720
degrees of rotation. -/
def g720 : Gyro :=
  { analog := some ch720, center := 0, offset := 0,
    voltsPerDegreePerSecond := 1, error := none, waits := [],
    nullDeref := false }

/-- A concrete channel with `lsbWeight = 3`, on which the deadband formula
`volts * 1e9 / lsbWeight * 2^oversampleBits` is not an integer. -/
def chBad : Channel := { chEx with lsbWeight := 3, oversampleBits := 2 }

/-- A concrete valid gyro state over `chBad`. -/
def gBad : Gyro := { gEx with analog := some chBad }

/-- A concrete channel matching the spec's deadband example:
`lsbWeight = 1000`, `oversampleBits = 2`. -/
def chDead : Channel := { chEx with lsbWeight := 1000, oversampleBits := 2 }

/-- A concrete valid gyro state over `chDead`. -/
def gDead : Gyro := { gEx with analog := some chDead }

/-- A concrete gyro state in the fatal (invalid) condition left behind by a
failed `InitGyro`: error recorded, channel reference cleared. -/
def gFatal : Gyro :=
  { analog := none, center := 0, offset := 0,
    voltsPerDegreePerSecond := kDefaultVoltsPerDegreePerSecond,
    error := some WPIError.ParameterOutOfRange, waits := [],
    nullDeref := false }

/-- A concrete channel that is not capable of hardware accumulation. -/
def chNoAcc : Channel := { chEx with isAccumulatorChannel := false }

/-- A fresh gyro state holding the non-accumulator channel, as at the start
of a constructor body. -/
def gNoAcc : Gyro := Gyro.initial (some chNoAcc)

/-- Dereferencing the channel does not change the stored center. -/
@[simp] theorem Gyro.derefMut_center (g : Gyro) (f : Channel → Channel) :
    (g.derefMut f).center = g.center := by
  cases h : g.analog <;> simp [Gyro.derefMut, h]

/-- Dereferencing the channel does not change the stored offset. -/
@[simp] theorem Gyro.derefMut_offset (g : Gyro) (f : Channel → Channel) :
    (g.derefMut f).offset = g.offset := by
  cases h : g.analog <;> simp [Gyro.derefMut, h]

/-- Dereferencing the channel does not change the sensitivity. -/
@[simp] theorem Gyro.derefMut_volts (g : Gyro) (f : Channel → Channel) :
    (g.derefMut f).voltsPerDegreePerSecond = g.voltsPerDegreePerSecond := by
  cases h : g.analog <;> simp [Gyro.derefMut, h]

/-- Dereferencing the channel does not change the error status. -/
@[simp] theorem Gyro.derefMut_error (g : Gyro) (f : Channel → Channel) :
    (g.derefMut f).error = g.error := by
  cases h : g.analog <;> simp [Gyro.derefMut, h]

/-- Dereferencing the channel does not change the wait trace. -/
@[simp] theorem Gyro.derefMut_waits (g : Gyro) (f : Channel → Channel) :
    (g.derefMut f).waits = g.waits := by
  cases h : g.analog <;> simp [Gyro.derefMut, h]

/-- Dereferencing the channel does not change the fatal status. -/
@[simp] theorem Gyro.derefMut_fatal (g : Gyro) (f : Channel → Channel) :
    (g.derefMut f).StatusIsFatal = g.StatusIsFatal := by
  simp [Gyro.StatusIsFatal]

/-- Dereferencing a non-null channel applies the mutation to it. -/
theorem Gyro.derefMut_analog (g : Gyro) (f : Channel → Channel) (ch : Channel)
    (ha : g.analog = some ch) : (g.derefMut f).analog = some (f ch) := by
  simp [Gyro.derefMut, ha]

/-- The center stored by a non-fatal `Calibrate` run. -/
theorem Gyro.calibrate_center (g : Gyro) (value : ℤ) (count : ℕ)
    (hf : g.StatusIsFatal = false) :
    (g.Calibrate value count).center =
      (qtrunc ((value : ℚ) / (count : ℚ) + 1 / 2)).toNat := by
  simp [Gyro.Calibrate, hf]

/-- The offset stored by a non-fatal `Calibrate` run. -/
theorem Gyro.calibrate_offset (g : Gyro) (value : ℤ) (count : ℕ)
    (hf : g.StatusIsFatal = false) :
    (g.Calibrate value count).offset =
      (value : ℚ) / (count : ℚ) -
        ((qtrunc ((value : ℚ) / (count : ℚ) + 1 / 2)).toNat : ℚ) := by
  simp [Gyro.Calibrate, hf]

/-- `Calibrate` does not touch the error status. -/
theorem Gyro.calibrate_error (g : Gyro) (value : ℤ) (count : ℕ)
    (hf : g.StatusIsFatal = false) :
    (g.Calibrate value count).error = g.error := by
  simp [Gyro.Calibrate, hf, Gyro.WaitFor]

/-- `Calibrate` does not touch the sensitivity. -/
theorem Gyro.calibrate_volts (g : Gyro) (value : ℤ) (count : ℕ)
    (hf : g.StatusIsFatal = false) :
    (g.Calibrate value count).voltsPerDegreePerSecond =
      g.voltsPerDegreePerSecond := by
  simp [Gyro.Calibrate, hf, Gyro.WaitFor]

/-- A non-fatal `Calibrate` run stays non-fatal. -/
theorem Gyro.calibrate_fatal (g : Gyro) (value : ℤ) (count : ℕ)
    (hf : g.StatusIsFatal = false) :
    (g.Calibrate value count).StatusIsFatal = false := by
  have h := Gyro.calibrate_error g value count hf
  simp [Gyro.StatusIsFatal, h]
  simpa [Gyro.StatusIsFatal] using hf

/-- The channel state left behind by a non-fatal `Calibrate` run: the new
center is installed and the accumulator is reset. -/
theorem Gyro.calibrate_analog (g : Gyro) (ch : Channel) (value : ℤ)
    (count : ℕ) (hf : g.StatusIsFatal = false) (ha : g.analog = some ch) :
    (g.Calibrate value count).analog =
      some { ch with accumulatorValue := 0, accumulatorCount := 0,
                     accumulatorCenter :=
                       (qtrunc ((value : ℚ) / (count : ℚ) + 1 / 2)).toNat } := by
  simp [Gyro.Calibrate, hf, Gyro.derefMut, ha, Gyro.WaitFor]

/-- Closed form of `GetAngle` on a non-fatal state. -/
theorem Gyro.getAngle_eq (g : Gyro) (ch : Channel)
    (hf : g.StatusIsFatal = false) (ha : g.analog = some ch) :
    g.GetAngle =
      ((ch.accumulatorValue -
          qtrunc ((ch.accumulatorCount : ℚ) * g.offset) : ℤ) : ℚ) *
        (1 / 1000000000) * ch.lsbWeight * 2 ^ ch.averageBits /
        (ch.sampleRate * g.voltsPerDegreePerSecond) := by
  simp [Gyro.GetAngle, hf, ha]

/-- Closed form of the spec-side rounding angle on a non-fatal state. -/
theorem specGetAngleRound_eq (g : Gyro) (ch : Channel)
    (hf : g.StatusIsFatal = false) (ha : g.analog = some ch) :
    specGetAngleRound g =
      ((ch.accumulatorValue -
          round ((ch.accumulatorCount : ℚ) * g.offset) : ℤ) : ℚ) *
        (1 / 1000000000) * ch.lsbWeight * 2 ^ ch.averageBits /
        (ch.sampleRate * g.voltsPerDegreePerSecond) := by
  simp [specGetAngleRound, hf, ha]

/-- Closed form of `GetRate` on a non-fatal state. -/
theorem Gyro.getRate_eq (g : Gyro) (ch : Channel)
    (hf : g.StatusIsFatal = false) (ha : g.analog = some ch) :
    g.GetRate =
      (ch.averageValue - ((g.center : ℚ) + g.offset)) * (1 / 1000000000) *
        ch.lsbWeight / (2 ^ ch.oversampleBits * g.voltsPerDegreePerSecond) := by
  simp [Gyro.GetRate, hf, ha]

/-- Closed form of the deadband installed by a non-fatal `SetDeadband`. -/
theorem Gyro.setDeadband_installed (g : Gyro) (ch : Channel) (volts : ℚ)
    (hf : g.StatusIsFatal = false) (ha : g.analog = some ch) :
    installedDeadband (g.SetDeadband volts) =
      qtrunc (volts * 1000000000 / ch.lsbWeight * 2 ^ ch.oversampleBits) := by
  simp [Gyro.SetDeadband, hf, installedDeadband, Gyro.derefMut, ha]

/-- C1: after `Calibrate` returns on a valid channel, with `m` the mean
`accumulatedValue / sampleCount`, the stored center is `truncate(m + 0.5)`
(round-half-up) and the stored offset is exactly `m - center`. -/
theorem calibrate_center_round_half_up_offset_exact (g : Gyro) (ch : Channel)
    (value : ℤ) (count : ℕ)
    (hf : g.StatusIsFatal = false) (ha : g.analog = some ch)
    (hm : 0 ≤ (value : ℚ) / (count : ℚ)) :
    ((g.Calibrate value count).center : ℤ) =
      ⌊(value : ℚ) / (count : ℚ) + 1 / 2⌋ ∧
    (g.Calibrate value count).offset =
      (value : ℚ) / (count : ℚ) - ((g.Calibrate value count).center : ℚ) := by
  have hm2 : (0 : ℚ) ≤ (value : ℚ) / (count : ℚ) + 1 / 2 := by linarith
  have hfloor : 0 ≤ ⌊(value : ℚ) / (count : ℚ) + 1 / 2⌋ :=
    Int.floor_nonneg.mpr hm2
  simp only [Gyro.Calibrate, hf, Bool.false_eq_true, if_false, Gyro.derefMut,
    Gyro.WaitFor, ha, qtrunc, if_pos hm2]
  exact ⟨Int.toNat_of_nonneg hfloor, trivial⟩

/-- C1 witness: a calibration mean of `21/2 = 10.5` rounds up to center `11`
with offset `-1/2`. -/
theorem calibrate_center_round_half_up_offset_exact_witness :
    ((gEx.Calibrate 21 2).center : ℤ) = ⌊(21 : ℚ) / ((2 : ℕ) : ℚ) + 1 / 2⌋ ∧
    (gEx.Calibrate 21 2).offset =
      (21 : ℚ) / ((2 : ℕ) : ℚ) - ((gEx.Calibrate 21 2).center : ℚ) :=
  calibrate_center_round_half_up_offset_exact gEx chEx 21 2 rfl rfl (by norm_num)

/-- C2: evaluation of the code at the failing input. `Calibrate` has no
guard on a zero sample count: with `count = 0` it still runs the division
(the source divides by zero in floating point; the model's total rational
division yields `0`), stores the resulting center and offset, and leaves
the object non-fatal with no error recorded — it is not treated as an
`InvalidChannel`-like fatal condition. -/
theorem calibrate_zero_count_not_guarded :
    (gEx.Calibrate 12345 0).StatusIsFatal = false ∧
    (gEx.Calibrate 12345 0).error = none ∧
    (gEx.Calibrate 12345 0).center = 0 ∧
    (gEx.Calibrate 12345 0).offset = 0 := by
  refine ⟨rfl, rfl, ?_, ?_⟩
  · rw [Gyro.calibrate_center gEx 12345 0 rfl]
    norm_num [qtrunc]
  · rw [Gyro.calibrate_offset gEx 12345 0 rfl]
    norm_num [qtrunc]

/-- C3 counterexample: on a valid state with accumulated count `3` and
offset `1/2`, the source's truncating `(int64_t)` cast gives an angle of
`1` raw unit-scaled degree while the spec's `round(count * offset)`
correction gives `0`, so `GetAngle` does not compute the spec's
round-to-nearest formula. -/
theorem getAngle_round_claim_cex :
    gC3.StatusIsFatal = false ∧ gC3.GetAngle ≠ specGetAngleRound gC3 := by
  refine ⟨rfl, ?_⟩
  rw [Gyro.getAngle_eq gC3 chC3 rfl rfl, specGetAngleRound_eq gC3 chC3 rfl rfl]
  norm_num [qtrunc, round_eq, chC3, chEx, gC3]

/-- C3 amended: on every valid state `GetAngle` scales
`raw - trunc(count * offset)` (truncating `int64` cast, not rounding to
nearest) by `1e-9 * lsbWeight * 2^averageBits / (sampleRate *
sensitivity)`, and the result is a continuous degree value not folded into
`[0, 360)`: the synthetic accumulator value corresponding to 720 degrees
yields exactly `720`. -/
theorem getAngle_trunc_formula_and_continuous :
    (∀ (g : Gyro) (ch : Channel), g.StatusIsFatal = false →
      g.analog = some ch →
      g.GetAngle =
        ((ch.accumulatorValue -
            qtrunc ((ch.accumulatorCount : ℚ) * g.offset) : ℤ) : ℚ) *
          (1 / 1000000000) * ch.lsbWeight * 2 ^ ch.averageBits /
          (ch.sampleRate * g.voltsPerDegreePerSecond)) ∧
    g720.GetAngle = 720 := by
  constructor
  · intro g ch hf ha
    exact Gyro.getAngle_eq g ch hf ha
  · rw [Gyro.getAngle_eq g720 ch720 rfl rfl]
    norm_num [qtrunc, ch720, chEx, g720]

/-- C3 witness: the formula part of the amended theorem instantiated on the
720-degree state. -/
theorem getAngle_trunc_formula_and_continuous_witness :
    g720.GetAngle =
      ((ch720.accumulatorValue -
          qtrunc ((ch720.accumulatorCount : ℚ) * g720.offset) : ℤ) : ℚ) *
        (1 / 1000000000) * ch720.lsbWeight * 2 ^ ch720.averageBits /
        (ch720.sampleRate * g720.voltsPerDegreePerSecond) :=
  getAngle_trunc_formula_and_continuous.1 g720 ch720 rfl rfl

/-- C4: on every valid state `GetRate` returns
`(averageValue - (center + offset)) * 1e-9 * lsbWeight /
(2^oversampleBits * sensitivity)`, and after a `Calibrate` run whose mean
the stationary stream keeps reporting as the averaged value, `GetRate` is
exactly `0`. -/
theorem getRate_formula_and_zero_after_calibrate (g : Gyro) (ch : Channel)
    (value : ℤ) (count : ℕ)
    (hf : g.StatusIsFatal = false) (ha : g.analog = some ch) :
    g.GetRate =
      (ch.averageValue - ((g.center : ℚ) + g.offset)) * (1 / 1000000000) *
        ch.lsbWeight / (2 ^ ch.oversampleBits * g.voltsPerDegreePerSecond) ∧
    (ch.averageValue = (value : ℚ) / (count : ℚ) →
      (g.Calibrate value count).GetRate = 0) := by
  constructor
  · exact Gyro.getRate_eq g ch hf ha
  · intro hav
    have hf2 := Gyro.calibrate_fatal g value count hf
    have ha2 := Gyro.calibrate_analog g ch value count hf ha
    rw [Gyro.getRate_eq _ _ hf2 ha2, Gyro.calibrate_center g value count hf,
      Gyro.calibrate_offset g value count hf]
    simp only []
    rw [hav]
    ring

/-- C4 witness: instantiated on a stationary stream whose averaged value
equals the calibration mean `21/2`. -/
theorem getRate_formula_and_zero_after_calibrate_witness :
    gAvg.GetRate =
      (chAvg.averageValue - ((gAvg.center : ℚ) + gAvg.offset)) *
        (1 / 1000000000) * chAvg.lsbWeight /
        (2 ^ chAvg.oversampleBits * gAvg.voltsPerDegreePerSecond) ∧
    (chAvg.averageValue = ((21 : ℤ) : ℚ) / ((2 : ℕ) : ℚ) →
      (gAvg.Calibrate 21 2).GetRate = 0) :=
  getRate_formula_and_zero_after_calibrate gAvg chAvg 21 2 rfl rfl

/-- C5: constructing with a null channel reference records the null-parameter
error (fatal state); on the resulting object `GetAngle` returns `0`,
`GetRate` returns `0`, and `Reset` performs no work. All operations are
total functions of the model, so no exception propagates. -/
theorem null_channel_fail_closed (value : ℤ) (count : ℕ) :
    (AnalogGyroShared none value count).StatusIsFatal = true ∧
    (AnalogGyroShared none value count).GetAngle = 0 ∧
    (AnalogGyroShared none value count).GetRate = 0 ∧
    (AnalogGyroShared none value count).Reset =
      AnalogGyroShared none value count :=
  ⟨rfl, rfl, rfl, rfl⟩

/-- C6: on a valid state `Reset` leaves center, offset and sensitivity (and
the error status) unchanged, clears exactly the accumulator inside the
channel, and a `GetAngle` immediately after, with no new accumulation,
returns `0`. -/
theorem reset_clears_only_accumulator (g : Gyro) (ch : Channel)
    (hf : g.StatusIsFatal = false) (ha : g.analog = some ch) :
    g.Reset.center = g.center ∧ g.Reset.offset = g.offset ∧
    g.Reset.voltsPerDegreePerSecond = g.voltsPerDegreePerSecond ∧
    g.Reset.error = g.error ∧
    g.Reset.analog =
      some { ch with accumulatorValue := 0, accumulatorCount := 0 } ∧
    g.Reset.GetAngle = 0 := by
  have hreset : g.Reset =
      g.derefMut fun ch =>
        { ch with accumulatorValue := 0, accumulatorCount := 0 } := by
    simp [Gyro.Reset, hf]
  have hf2 : g.Reset.StatusIsFatal = false := by rw [hreset]; simp [hf]
  have ha2 : g.Reset.analog =
      some { ch with accumulatorValue := 0, accumulatorCount := 0 } := by
    rw [hreset]; exact Gyro.derefMut_analog g _ ch ha
  refine ⟨by rw [hreset]; simp, by rw [hreset]; simp,
    by rw [hreset]; simp, by rw [hreset]; simp, ha2, ?_⟩
  rw [Gyro.getAngle_eq _ _ hf2 ha2]
  norm_num [qtrunc]

/-- C6 witness: `Reset` on the concrete valid state `gEx`. -/
theorem reset_clears_only_accumulator_witness :
    gEx.Reset.center = gEx.center ∧ gEx.Reset.offset = gEx.offset ∧
    gEx.Reset.voltsPerDegreePerSecond = gEx.voltsPerDegreePerSecond ∧
    gEx.Reset.error = gEx.error ∧
    gEx.Reset.analog =
      some { chEx with accumulatorValue := 0, accumulatorCount := 0 } ∧
    gEx.Reset.GetAngle = 0 :=
  reset_clears_only_accumulator gEx chEx rfl rfl

/-- C7 counterexample: with `lsbWeight = 3` and `oversampleBits = 2`, the
conversion `0.5 * 1e9 / 3 * 4 = 2000000000/3` is not an integer, and the
`int32_t` initialisation truncates it to `666666666`; the installed
raw-count threshold therefore differs from the claimed exact value. -/
theorem setDeadband_exact_claim_cex :
    gBad.StatusIsFatal = false ∧
    (installedDeadband (gBad.SetDeadband (1 / 2)) : ℚ) ≠
      (1 / 2) * 1000000000 / 3 * 2 ^ (2 : ℕ) := by
  refine ⟨rfl, ?_⟩
  rw [Gyro.setDeadband_installed gBad chBad (1 / 2) rfl rfl]
  norm_num [qtrunc, chBad, chEx]

/-- C7 amended: on every valid state `SetDeadband(volts)` passes to the
channel the truncation toward zero (by the `int32_t` initialisation) of
`volts * 1e9 / lsbWeight * 2^oversampleBits`; when that quantity is an
integer — as in the claim's `SetDeadband(0.5)`, `lsbWeight = 1000`,
`oversampleBits = 2` example, giving `2,000,000` — it is passed exactly. -/
theorem setDeadband_truncated_counts (g : Gyro) (ch : Channel) (volts : ℚ)
    (hf : g.StatusIsFatal = false) (ha : g.analog = some ch) :
    installedDeadband (g.SetDeadband volts) =
      qtrunc (volts * 1000000000 / ch.lsbWeight * 2 ^ ch.oversampleBits) :=
  Gyro.setDeadband_installed g ch volts hf ha

/-- C7 witness: the claim's own example, `SetDeadband(0.5)` with
`lsbWeight = 1000` and `oversampleBits = 2`, installs `2,000,000`. -/
theorem setDeadband_truncated_counts_witness :
    installedDeadband (gDead.SetDeadband (1 / 2)) = 2000000 := by
  rw [setDeadband_truncated_counts gDead chDead (1 / 2) rfl rfl]
  norm_num [qtrunc, chDead, chEx]

/-- C8 counterexample: the preset-bias constructor does perform a wait —
`InitGyro`, which it invokes, contains the fixed 0.1 s configuration-settle
`Wait` — so its wait trace is not empty. -/
theorem preset_ctor_no_wait_claim_cex :
    (AnalogGyroPresetShared (some chEx) 100 (1 / 4)).waits ≠ [] := by
  simp [AnalogGyroPresetShared, Gyro.InitGyro, Gyro.initial, chEx,
    Gyro.StatusIsFatal, Gyro.WaitFor, Gyro.SetDeadband, Gyro.derefMut]

/-- C8 amended: constructing with an explicit preset pair on an
accumulator-capable channel skips the calibration pass entirely (the wait
trace contains no calibration-window wait), stores the presets so that
`GetCenter` and `GetOffset` return them, and performs exactly one wait: the
fixed 0.1 s configuration-settle wait inside `InitGyro`. -/
theorem preset_ctor_skips_calibration (ch : Channel) (center : ℕ)
    (offset : ℚ) (hacc : ch.isAccumulatorChannel = true) :
    (AnalogGyroPresetShared (some ch) center offset).GetCenter = center ∧
    (AnalogGyroPresetShared (some ch) center offset).GetOffset = offset ∧
    (AnalogGyroPresetShared (some ch) center offset).StatusIsFatal = false ∧
    (AnalogGyroPresetShared (some ch) center offset).waits = [1 / 10] := by
  simp [AnalogGyroPresetShared, Gyro.InitGyro, Gyro.initial, hacc,
    Gyro.StatusIsFatal, Gyro.WaitFor, Gyro.SetDeadband, Gyro.derefMut,
    Gyro.GetCenter, Gyro.GetOffset]

/-- C8 witness: the claim's preset pair `(center, offset) = (100, 0.25)` on
a concrete accumulator-capable channel. -/
theorem preset_ctor_skips_calibration_witness :
    (AnalogGyroPresetShared (some chEx) 100 (1 / 4)).GetCenter = 100 ∧
    (AnalogGyroPresetShared (some chEx) 100 (1 / 4)).GetOffset = 1 / 4 ∧
    (AnalogGyroPresetShared (some chEx) 100 (1 / 4)).StatusIsFatal = false ∧
    (AnalogGyroPresetShared (some chEx) 100 (1 / 4)).waits = [1 / 10] :=
  preset_ctor_skips_calibration chEx 100 (1 / 4) rfl

/-- C9 counterexample: in a fatal state `SetSensitivity` is not a no-op —
the source writes `m_voltsPerDegreePerSecond` without checking the fatal
status, so the stored sensitivity changes. -/
theorem fatal_setSensitivity_not_noop_cex :
    gFatal.StatusIsFatal = true ∧
    (gFatal.SetSensitivity 2).voltsPerDegreePerSecond ≠
      gFatal.voltsPerDegreePerSecond := by
  refine ⟨rfl, ?_⟩
  simp [Gyro.SetSensitivity, gFatal, kDefaultVoltsPerDegreePerSecond]
  norm_num

/-- C9 amended: once the object is fatal (as after `InitGyro` rejects a
non-accumulator channel, recording a parameter-out-of-range error and
clearing the channel reference), every channel-touching operation —
`Reset`, `GetAngle`, `GetRate`, `SetDeadband`, `Calibrate`, `InitGyro` — is
a no-op returning only zero; but `SetSensitivity` still overwrites the
stored sensitivity, and `GetOffset`/`GetCenter` return the stored field
values rather than being guarded. -/
theorem fatal_state_ops :
    (∀ (g : Gyro) (volts : ℚ) (value : ℤ) (count : ℕ),
      g.StatusIsFatal = true →
      g.Reset = g ∧ g.GetAngle = 0 ∧ g.GetRate = 0 ∧
      g.SetDeadband volts = g ∧ g.Calibrate value count = g ∧
      g.InitGyro = g ∧
      (g.SetSensitivity volts).voltsPerDegreePerSecond = volts ∧
      g.GetOffset = g.offset ∧ g.GetCenter = g.center) ∧
    (∀ (g : Gyro) (ch : Channel), g.StatusIsFatal = false →
      g.analog = some ch → ch.isAccumulatorChannel = false →
      g.InitGyro.error = some WPIError.ParameterOutOfRange ∧
      g.InitGyro.analog = none ∧ g.InitGyro.StatusIsFatal = true) := by
  constructor
  · intro g volts value count hf
    refine ⟨?_, ?_, ?_, ?_, ?_, ?_, rfl, rfl, rfl⟩
    · simp [Gyro.Reset, hf]
    · simp [Gyro.GetAngle, hf]
    · simp [Gyro.GetRate, hf]
    · simp [Gyro.SetDeadband, hf]
    · simp [Gyro.Calibrate, hf]
    · simp [Gyro.InitGyro, hf]
  · intro g ch hf ha hacc
    have hf2 : g.error.isSome = false := hf
    refine ⟨?_, ?_, ?_⟩ <;>
      simp [Gyro.InitGyro, hf, hf2, ha, hacc, Gyro.StatusIsFatal]

/-- C9 witness: the fatal-state behaviour at a concrete fatal state, and the
`InitGyro` failure behaviour at a concrete non-accumulator channel. -/
theorem fatal_state_ops_witness :
    (gFatal.Reset = gFatal ∧ gFatal.GetAngle = 0 ∧ gFatal.GetRate = 0 ∧
      gFatal.SetDeadband 2 = gFatal ∧ gFatal.Calibrate 5 3 = gFatal ∧
      gFatal.InitGyro = gFatal ∧
      (gFatal.SetSensitivity 2).voltsPerDegreePerSecond = 2 ∧
      gFatal.GetOffset = gFatal.offset ∧ gFatal.GetCenter = gFatal.center) ∧
    (gNoAcc.InitGyro.error = some WPIError.ParameterOutOfRange ∧
      gNoAcc.InitGyro.analog = none ∧ gNoAcc.InitGyro.StatusIsFatal = true) :=
  ⟨fatal_state_ops.1 gFatal 2 5 3 rfl,
    fatal_state_ops.2 gNoAcc chNoAcc rfl rfl rfl⟩

/-- C10: in both preset-bias constructors, when the channel fails validation
inside `InitGyro` (which clears the stored channel reference), the
constructor still assigns the caller-supplied center and offset and then
invokes `SetAccumulatorCenter`/`ResetAccumulator` through the cleared — now
null — channel reference: the error branch is reachable and dereferences a
null channel. -/
theorem preset_ctor_error_branch_null_deref (ch : Channel) (center : ℕ)
    (offset : ℚ) (hacc : ch.isAccumulatorChannel = false) :
    (AnalogGyroPresetShared (some ch) center offset).nullDeref = true ∧
    (AnalogGyroPresetShared (some ch) center offset).center = center ∧
    (AnalogGyroPresetShared (some ch) center offset).offset = offset ∧
    (AnalogGyroPresetShared (some ch) center offset).analog = none ∧
    (AnalogGyroPresetInt ch center offset).nullDeref = true ∧
    (AnalogGyroPresetInt ch center offset).center = center ∧
    (AnalogGyroPresetInt ch center offset).offset = offset ∧
    (AnalogGyroPresetInt ch center offset).analog = none := by
  refine ⟨?_, ?_, ?_, ?_, ?_, ?_, ?_, ?_⟩ <;>
    simp [AnalogGyroPresetShared, AnalogGyroPresetInt, Gyro.InitGyro,
      Gyro.initial, hacc, Gyro.StatusIsFatal, Gyro.derefMut]

/-- C10 witness: the error branch exercised on a concrete channel that
cannot accumulate, with the preset pair `(100, 0.25)`. -/
theorem preset_ctor_error_branch_null_deref_witness :
    (AnalogGyroPresetShared (some chNoAcc) 100 (1 / 4)).nullDeref = true ∧
    (AnalogGyroPresetShared (some chNoAcc) 100 (1 / 4)).center = 100 ∧
    (AnalogGyroPresetShared (some chNoAcc) 100 (1 / 4)).offset = 1 / 4 ∧
    (AnalogGyroPresetShared (some chNoAcc) 100 (1 / 4)).analog = none ∧
    (AnalogGyroPresetInt chNoAcc 100 (1 / 4)).nullDeref = true ∧
    (AnalogGyroPresetInt chNoAcc 100 (1 / 4)).center = 100 ∧
    (AnalogGyroPresetInt chNoAcc 100 (1 / 4)).offset = 1 / 4 ∧
    (AnalogGyroPresetInt chNoAcc 100 (1 / 4)).analog = none :=
  preset_ctor_error_branch_null_deref chNoAcc 100 (1 / 4) rfl
